import Mathlib

set_option linter.unusedVariables false

/- Shallow embedding of the jup-sdk transaction monitor (src/monitor.rs), the
error taxonomy (src/types.rs) and the retry executor (src/lib.rs).  Remote RPC
calls are modelled as oracles inside an `RpcClient` record: each field gives
the response the node would return to that call in the current poll iteration.
Rust panics (an `unwrap` on `None`) are made explicit through `PanicOr`. -/

/-- Commitment level requested for a ledger query (solana CommitmentConfig). -/
inductive CommitmentConfig where
  | processed
  | confirmed
  | finalized
deriving DecidableEq

/-- Configuration passed to the get_transaction RPC (solana RpcTransactionConfig). -/
structure RpcTransactionConfig where
  encoding : Option String
  commitment : Option CommitmentConfig
  max_supported_transaction_version : Option Nat
deriving DecidableEq

/-- Transaction metadata as returned by get_transaction; log_messages models the
OptionSerializer field, where none covers both the None and Skip cases. -/
structure TxMeta where
  log_messages : Option (List String)
deriving DecidableEq

/-- Transaction record returned by the get_transaction RPC
(EncodedConfirmedTransactionWithStatusMeta, with transaction.meta flattened). -/
structure FetchedTransaction where
  slot : Nat
  block_time : Option Int
  meta : Option TxMeta
deriving DecidableEq

/-- One record of get_signature_statuses (solana TransactionStatus): slot,
optional confirmation count, optional terminal error rendered as a string. -/
structure SigStatus where
  slot : Nat
  confirmations : Option Nat
  err : Option String
deriving DecidableEq

/-- The RPC client surface used by the monitor, modelled as oracles giving the
response of each remote call in the current poll iteration.  The error branch
of each `Except` is a transport-level failure of that call (for
get_transaction it also covers "not found", which the source does not
distinguish: both surface as `Err(_)` there). -/
structure RpcClient where
  get_signature_statuses : Except String (List (Option SigStatus))
  get_transaction_with_config : RpcTransactionConfig → Except Unit FetchedTransaction
  get_block_time : Nat → Except String Int

/-- Solana handle; the client is optional exactly as in the source. -/
structure Solana where
  client : Option RpcClient

/-- Parsed transaction signature; `str` is its display form (to_string). -/
structure Signature where
  str : String
deriving DecidableEq

/-- Error type of the SDK (src/types.rs JupiterError). -/
inductive JupiterError where
  | RequestFailed : String → JupiterError
  | InvalidInput : String → JupiterError
  | NetworkError : String → JupiterError
  | ValidationError : String → JupiterError
  | RateLimitExceeded : String → JupiterError
  | TransactionFailed : String → JupiterError
  | ParseError : String → JupiterError
  | Error : String → JupiterError
deriving DecidableEq

/-- Whether the pattern (first argument) is an initial segment of the second. -/
def leadsWith : List Char → List Char → Bool
  | [], _ => true
  | _ :: _, [] => false
  | p :: ps, c :: cs => p == c && leadsWith ps cs

/-- Whether the pattern occurs as a contiguous run inside the string. -/
def hasSubRun (s pat : List Char) : Bool :=
  match s with
  | [] => pat.isEmpty
  | _ :: rest => leadsWith pat s || hasSubRun rest pat

/-- Substring test mirroring Rust str::contains over the underlying characters. -/
def containsSub (s pat : String) : Bool :=
  hasSubRun s.data pat.data

/-- JupiterError::is_retriable (src/types.rs lines 137-151), verbatim: network
and rate-limit errors retry; RequestFailed retries only when the message
contains "500", "502" or "503"; everything else is fatal. -/
def JupiterError.is_retriable : JupiterError → Bool
  | .NetworkError _ => true
  | .RequestFailed msg =>
      containsSub msg "500" || containsSub msg "502" || containsSub msg "503"
  | .RateLimitExceeded _ => true
  | .InvalidInput _ => false
  | .ParseError _ => false
  | .TransactionFailed _ => false
  | .Error _ => false
  | .ValidationError _ => false

/-- Display impl of JupiterError (src/types.rs lines 154-167), including the
copy-pasted "Parse error:" prefixes of the source. -/
def JupiterError.display : JupiterError → String
  | .RequestFailed msg => "Request failed: " ++ msg
  | .InvalidInput msg => "Invalid input: " ++ msg
  | .NetworkError msg => "Network error: " ++ msg
  | .ParseError msg => "Parse error: " ++ msg
  | .Error msg => "Parse error: " ++ msg
  | .ValidationError msg => "Parse error: " ++ msg
  | .RateLimitExceeded msg => "Parse error: " ++ msg
  | .TransactionFailed msg => "Parse error: " ++ msg

/-- Debug ({:?}) rendering of JupiterError, used by the map_err format strings. -/
def JupiterError.debugStr : JupiterError → String
  | .RequestFailed m => "RequestFailed(\"" ++ m ++ "\")"
  | .InvalidInput m => "InvalidInput(\"" ++ m ++ "\")"
  | .NetworkError m => "NetworkError(\"" ++ m ++ "\")"
  | .ValidationError m => "ValidationError(\"" ++ m ++ "\")"
  | .RateLimitExceeded m => "RateLimitExceeded(\"" ++ m ++ "\")"
  | .TransactionFailed m => "TransactionFailed(\"" ++ m ++ "\")"
  | .ParseError m => "ParseError(\"" ++ m ++ "\")"
  | .Error m => "Error(\"" ++ m ++ "\")"

deriving instance DecidableEq for Except

/-- Outcome of running code that may panic: either a Rust panic or a value. -/
inductive PanicOr (α : Type) where
  | panic : PanicOr α
  | value : α → PanicOr α
deriving DecidableEq

/-- Transaction status (src/monitor.rs lines 31-38). -/
inductive TransactionStatus where
  | Pending
  | Confirmed
  | Finalized
  | Failed
  | Timeout
deriving DecidableEq

/-- Transaction monitoring result (src/monitor.rs lines 41-50). -/
structure TransactionMonitorResult where
  signature : String
  status : TransactionStatus
  slot : Nat
  block_time : Option Int
  confirmations : Option Nat
  logs : List String
  error : Option String
deriving DecidableEq

/-- Monitoring configuration (src/monitor.rs lines 11-17); durations in
milliseconds. -/
structure TransactionMonitorConfig where
  timeout : Nat
  poll_interval : Nat
  commitment : CommitmentConfig
  confirmations_required : Nat
deriving DecidableEq

/-- Default monitoring configuration (src/monitor.rs lines 19-28). -/
def TransactionMonitorConfig.default : TransactionMonitorConfig :=
  { timeout := 60000
    poll_interval := 2000
    commitment := CommitmentConfig.confirmed
    confirmations_required := 1 }

/-- Monitor::get_transaction_logs (src/monitor.rs lines 241-273): a successful
fetch yields the optional log messages; a failed fetch becomes the error
"transaction does not exist". -/
def get_transaction_logs (sig : Signature) (solana : Solana) :
    Except JupiterError (Option (List String)) :=
  let transaction_config : RpcTransactionConfig :=
    { encoding := none
      commitment := none
      max_supported_transaction_version := some 0 }
  match solana.client with
  | none => .error (JupiterError.Error "solana client error")
  | some client =>
    match client.get_transaction_with_config transaction_config with
    | .ok transaction => .ok (transaction.meta.bind (fun m => m.log_messages))
    | .error _ => .error (JupiterError.Error "transaction does not exist")

/-- Monitor::check_via_transaction (src/monitor.rs lines 194-238): fallback
probe through get_transaction; a found transaction is reported as Confirmed
with confirmations set to the configured requirement. -/
def check_via_transaction (sig : Signature) (solana : Solana)
    (config : TransactionMonitorConfig) :
    Except JupiterError (Option TransactionMonitorResult) :=
  let transaction_config : RpcTransactionConfig :=
    { encoding := none
      commitment := some config.commitment
      max_supported_transaction_version := some 0 }
  match solana.client with
  | none => .error (JupiterError.Error "get block time error")
  | some client =>
    match client.get_transaction_with_config transaction_config with
    | .ok transaction =>
      .ok (some
        { signature := sig.str
          status := TransactionStatus.Confirmed
          slot := transaction.slot
          block_time := transaction.block_time
          confirmations := some config.confirmations_required
          logs := (transaction.meta.bind (fun m => m.log_messages)).getD []
          error := none })
    | .error _ => .ok none

/-- Monitor::check_transaction_status (src/monitor.rs lines 127-191).  When the
status probe has a record, logs are fetched first (a fetch failure aborts the
iteration via the question-mark operator; a successful fetch without log
messages hits the source's `.unwrap()`, i.e. panics), then the status is
determined by the err / confirmations precedence, then the block time is
fetched for a positive slot.  When the probe has no record, the get_transaction
fallback is consulted. -/
def check_transaction_status (sig : Signature) (solana : Solana)
    (config : TransactionMonitorConfig) :
    PanicOr (Except JupiterError (Option TransactionMonitorResult)) :=
  match solana.client with
  | none => .value (.error (JupiterError.Error "solana client error"))
  | some client =>
    match client.get_signature_statuses with
    | .error e => .value (.error (JupiterError.NetworkError e))
    | .ok statuses =>
      match (statuses.get? 0).bind id with
      | some status =>
        match get_transaction_logs sig solana with
        | .error e =>
          .value (.error (JupiterError.Error
            ("get transcation logs error:" ++ JupiterError.debugStr e)))
        | .ok none => .panic
        | .ok (some logs) =>
          let transaction_status :=
            if status.err.isSome then TransactionStatus.Failed
            else if status.confirmations.isNone then TransactionStatus.Finalized
            else if (status.confirmations.map
                (fun c => decide (config.confirmations_required ≤ c))).getD false then
              TransactionStatus.Confirmed
            else TransactionStatus.Pending
          match (if 0 < status.slot then
                   match solana.client with
                   | none => Except.error (JupiterError.Error "get block time error")
                   | some c =>
                     match c.get_block_time status.slot with
                     | .error e =>
                       Except.error (JupiterError.Error ("get block time error:" ++ e))
                     | .ok t => Except.ok t
                 else Except.ok 0) with
          | .error e => .value (.error e)
          | .ok block_time =>
            .value (.ok (some
              { signature := sig.str
                status := transaction_status
                slot := status.slot
                block_time := some block_time
                confirmations := status.confirmations.map (fun c => c % 256)
                logs := logs
                error := status.err }))
      | none =>
        match check_via_transaction sig solana config with
        | .ok (some result) => .value (.ok (some result))
        | _ => .value (.ok none)

/-- The timeout result built after the poll loop's deadline
(src/monitor.rs lines 115-123). -/
def timeoutResult (sigStr : String) : TransactionMonitorResult :=
  { signature := sigStr
    status := TransactionStatus.Timeout
    slot := 0
    block_time := none
    confirmations := none
    logs := []
    error := some "Transaction monitoring timeout" }

/-- The while loop of Monitor::monitor_transaction_status
(src/monitor.rs lines 89-113).  `check k` is the outcome of
check_transaction_status in iteration k; `elapsed` advances by poll_interval
per iteration (the sleep), and the loop runs while `elapsed < timeout`.
The fuel argument only pads the recursion: the entry point passes
`timeout + 1`, which is never exhausted when poll_interval is positive, the
regime the source is specified for. -/
def pollLoop (check : Nat → PanicOr (Except JupiterError (Option TransactionMonitorResult)))
    (sigStr : String) (timeout poll_interval : Nat) :
    Nat → Nat → Nat → PanicOr TransactionMonitorResult
  | 0, _, _ => .value (timeoutResult sigStr)
  | fuel + 1, k, elapsed =>
    if elapsed < timeout then
      match check k with
      | .panic => .panic
      | .value (.ok (some result)) =>
        if result.status = TransactionStatus.Confirmed
            ∨ result.status = TransactionStatus.Finalized then
          .value result
        else if result.status = TransactionStatus.Failed then
          .value result
        else
          pollLoop check sigStr timeout poll_interval fuel (k + 1) (elapsed + poll_interval)
      | .value (.ok none) =>
        pollLoop check sigStr timeout poll_interval fuel (k + 1) (elapsed + poll_interval)
      | .value (.error _) =>
        pollLoop check sigStr timeout poll_interval fuel (k + 1) (elapsed + poll_interval)
    else
      .value (timeoutResult sigStr)

/-- Monitor::monitor_transaction_status (src/monitor.rs lines 79-124).
`from_str` is the Signature::from_str collaborator; `envs k` is the state of
the remote node at poll iteration k.  A parse failure surfaces as
InvalidInput; the loop itself only ever returns Ok. -/
def monitor_transaction_status (from_str : String → Except String Signature)
    (signature : String) (envs : Nat → Solana)
    (config : Option TransactionMonitorConfig) :
    PanicOr (Except JupiterError TransactionMonitorResult) :=
  let cfg := config.getD TransactionMonitorConfig.default
  match from_str signature with
  | .error e => .value (.error (JupiterError.InvalidInput e))
  | .ok sig =>
    match pollLoop (fun k => check_transaction_status sig (envs k) cfg) sig.str
        cfg.timeout cfg.poll_interval (cfg.timeout + 1) 0 0 with
    | .panic => .panic
    | .value r => .value (.ok r)

/-- The synthetic result substituted by the batch monitor when one signature's
monitoring returns an error (src/monitor.rs lines 317-325). -/
def syntheticFailed (signature : String) (e : JupiterError) : TransactionMonitorResult :=
  { signature := signature
    status := TransactionStatus.Failed
    slot := 0
    block_time := none
    confirmations := none
    logs := []
    error := some e.display }

/-- The per-signature loop of Monitor::monitor_transactions_batch
(src/monitor.rs lines 308-328); `i` is the position of the current signature,
`envs i` the node behaviour seen while monitoring it. -/
def monitor_transactions_batch_aux (from_str : String → Except String Signature)
    (envs : Nat → Nat → Solana) (cfg : TransactionMonitorConfig) :
    Nat → List String → PanicOr (List TransactionMonitorResult)
  | _, [] => .value []
  | i, signature :: rest =>
    match monitor_transaction_status from_str signature (envs i) (some cfg) with
    | .panic => .panic
    | .value (.ok result) =>
      match monitor_transactions_batch_aux from_str envs cfg (i + 1) rest with
      | .panic => .panic
      | .value results => .value (result :: results)
    | .value (.error e) =>
      match monitor_transactions_batch_aux from_str envs cfg (i + 1) rest with
      | .panic => .panic
      | .value results => .value (syntheticFailed signature e :: results)

/-- Monitor::monitor_transactions_batch (src/monitor.rs lines 302-330). -/
def monitor_transactions_batch (from_str : String → Except String Signature)
    (signatures : List String) (envs : Nat → Nat → Solana)
    (config : Option TransactionMonitorConfig) :
    PanicOr (Except JupiterError (List TransactionMonitorResult)) :=
  let cfg := config.getD TransactionMonitorConfig.default
  match monitor_transactions_batch_aux from_str envs cfg 0 signatures with
  | .panic => .panic
  | .value results => .value (.ok results)

/-- Retry configuration (src/retry.rs lines 9-14); delays in milliseconds,
the f64 multiplier modelled as an exact rational. -/
structure RetryConfig where
  max_retries : Nat
  initial_delay : Nat
  max_delay : Nat
  backoff_multiplier : ℚ
deriving DecidableEq

/-- JupiterClient::cal_delay (src/lib.rs lines 750-755): the f64 value
initial_delay * multiplier^attempt clamped to max_delay, modelled over exact
rationals (the source then truncates it to whole milliseconds). -/
def cal_delay (attempt : Nat) (config : RetryConfig) : ℚ :=
  min ((config.initial_delay : ℚ) * config.backoff_multiplier ^ attempt)
    (config.max_delay : ℚ)

/-- Observable trace of one execute_with_retry run: the outcome, how many
times the operation was invoked, and the sleeps performed in order. -/
structure RetryTrace (T : Type) where
  result : Except JupiterError T
  attempts : Nat
  sleeps : List ℚ

/-- The loop body of JupiterClient::execute_with_retry (src/lib.rs lines
719-747).  `op k` is the outcome of the k-th invocation of the operation;
`remaining` counts the iterations the for-loop may still run after this one
(`attempt < max_retries` in the source is `remaining > 0` here).  The source's
final `last_error.unwrap_or_else` fallback is unreachable: the loop body runs
at least once and every break path carries the error of the attempt it broke
on, which is what the recursion returns directly. -/
def execute_with_retry_aux {T : Type} (op : Nat → Except JupiterError T)
    (config : RetryConfig) :
    Nat → Nat → List ℚ → RetryTrace T
  | attempt, 0, sleeps =>
    match op attempt with
    | .ok r => ⟨.ok r, attempt + 1, sleeps⟩
    | .error e => ⟨.error e, attempt + 1, sleeps⟩
  | attempt, remaining + 1, sleeps =>
    match op attempt with
    | .ok r => ⟨.ok r, attempt + 1, sleeps⟩
    | .error e =>
      if e.is_retriable then
        execute_with_retry_aux op config (attempt + 1) remaining
          (sleeps ++ [cal_delay attempt config])
      else ⟨.error e, attempt + 1, sleeps⟩

/-- JupiterClient::execute_with_retry (src/lib.rs lines 719-747): attempts
0..=max_retries, returning on the first success, sleeping cal_delay(attempt)
before retrying a retriable failure that is not on the last allowed attempt,
and surfacing the most recent failure otherwise. -/
def execute_with_retry {T : Type} (op : Nat → Except JupiterError T)
    (config : RetryConfig) : RetryTrace T :=
  execute_with_retry_aux op config 0 config.max_retries []

/- Concrete fixtures used to exercise the theorems on explicit inputs. -/

/-- A small monitoring configuration: 2 ms deadline, 1 ms poll interval,
one confirmation required. -/
def cfgW : TransactionMonitorConfig :=
  { timeout := 2
    poll_interval := 1
    commitment := CommitmentConfig.confirmed
    confirmations_required := 1 }

/-- Probe record of a healthy transaction: slot 5, three confirmations, no error. -/
def statusRec : SigStatus := { slot := 5, confirmations := some 3, err := none }

/-- Node where the probe has a record and the transaction fetch succeeds with logs. -/
def clientRec : RpcClient :=
  { get_signature_statuses := .ok [some statusRec]
    get_transaction_with_config := fun _ =>
      .ok { slot := 5, block_time := some 100, meta := some { log_messages := some ["log1"] } }
    get_block_time := fun _ => .ok 42 }

def solanaRec : Solana := { client := some clientRec }

/-- Node where the probe reports a failed transaction but every transaction
fetch fails, so the log enrichment errors out. -/
def clientLogsFail : RpcClient :=
  { get_signature_statuses :=
      .ok [some { slot := 5, confirmations := some 3, err := some "InstructionError" }]
    get_transaction_with_config := fun _ => .error ()
    get_block_time := fun _ => .ok 42 }

def solanaLogsFail : Solana := { client := some clientLogsFail }

/-- Node where the probe has a record and the transaction fetch succeeds but
carries no metadata, hence no log messages. -/
def clientNoLogs : RpcClient :=
  { get_signature_statuses := .ok [some statusRec]
    get_transaction_with_config := fun _ => .ok { slot := 5, block_time := none, meta := none }
    get_block_time := fun _ => .ok 42 }

def solanaNoLogs : Solana := { client := some clientNoLogs }

/-- Node that has no record of the signature and whose transaction fetch fails. -/
def clientNoRecord : RpcClient :=
  { get_signature_statuses := .ok [none]
    get_transaction_with_config := fun _ => .error ()
    get_block_time := fun _ => .ok 0 }

def solanaNoRecord : Solana := { client := some clientNoRecord }

/-- A transaction record the fallback fetch can find. -/
def txW : FetchedTransaction :=
  { slot := 9, block_time := some 77, meta := some { log_messages := some ["fb"] } }

/-- Node that has no probe record but where the fallback fetch finds `txW`. -/
def clientFallbackOk : RpcClient :=
  { get_signature_statuses := .ok []
    get_transaction_with_config := fun _ => .ok txW
    get_block_time := fun _ => .ok 0 }

def solanaFallbackOk : Solana := { client := some clientFallbackOk }

/-- A signature parser that always fails, standing in for Signature::from_str
on a malformed string. -/
def fsBad : String → Except String Signature := fun _ => .error "bad"

/-- A signature parser that always succeeds with the display form "sigW". -/
def fsOk : String → Except String Signature := fun _ => .ok ⟨"sigW"⟩

/-- The default retry configuration of the source (src/retry.rs lines 16-25). -/
def cfgR : RetryConfig :=
  { max_retries := 3, initial_delay := 500, max_delay := 5000, backoff_multiplier := 2 }

/-- True exactly when a status-check outcome is a produced monitor result
(the iteration resolved the signature this round). -/
def isOkSome : PanicOr (Except JupiterError (Option TransactionMonitorResult)) → Bool
  | .value (.ok (some _)) => true
  | _ => false

/-- True exactly when a status-check outcome leaves the poll loop polling:
a swallowed error, no result, or a result in a non-terminal status. -/
def inconclusiveCheck : PanicOr (Except JupiterError (Option TransactionMonitorResult)) → Bool
  | .panic => false
  | .value (.error _) => true
  | .value (.ok none) => true
  | .value (.ok (some r)) =>
      !(decide (r.status = TransactionStatus.Confirmed
        ∨ r.status = TransactionStatus.Finalized
        ∨ r.status = TransactionStatus.Failed))

/-- An operation that always fails with a fatal (non-retriable) error. -/
def opFatal : Nat → Except JupiterError Nat :=
  fun _ => .error (JupiterError.InvalidInput "x")

/- Helper lemmas shared by the claim theorems. -/

/-- Behaviour of check_transaction_status once the probe is known to hold a
record: the outcome is fully determined by the log fetch and the block-time
call, in that order. -/
lemma check_record_present_eq (sig : Signature) (solana : Solana)
    (config : TransactionMonitorConfig) (client : RpcClient)
    (statuses : List (Option SigStatus)) (status : SigStatus)
    (hc : solana.client = some client)
    (hs : client.get_signature_statuses = .ok statuses)
    (hr : (statuses.get? 0).bind id = some status) :
    check_transaction_status sig solana config =
      match get_transaction_logs sig solana with
      | .error e =>
        .value (.error (JupiterError.Error
          ("get transcation logs error:" ++ JupiterError.debugStr e)))
      | .ok none => .panic
      | .ok (some logs) =>
        match (if 0 < status.slot then
                 match client.get_block_time status.slot with
                 | .error e =>
                   Except.error (JupiterError.Error ("get block time error:" ++ e))
                 | .ok t => Except.ok t
               else Except.ok 0) with
        | .error e => .value (.error e)
        | .ok block_time =>
          .value (.ok (some
            { signature := sig.str
              status :=
                if status.err.isSome then TransactionStatus.Failed
                else if status.confirmations.isNone then TransactionStatus.Finalized
                else if (status.confirmations.map
                    (fun c => decide (config.confirmations_required ≤ c))).getD false then
                  TransactionStatus.Confirmed
                else TransactionStatus.Pending
              slot := status.slot
              block_time := some block_time
              confirmations := status.confirmations.map (fun c => c % 256)
              logs := logs
              error := status.err })) := by
  simp only [check_transaction_status, hc, hs, hr]

/-- A poll loop whose every iteration is inconclusive runs to its deadline and
returns the timeout result, from any starting iteration and elapsed time. -/
lemma pollLoop_all_inconclusive
    (check : Nat → PanicOr (Except JupiterError (Option TransactionMonitorResult)))
    (sigStr : String) (timeout poll_interval : Nat)
    (h : ∀ k, inconclusiveCheck (check k) = true) :
    ∀ fuel k elapsed,
      pollLoop check sigStr timeout poll_interval fuel k elapsed =
        .value (timeoutResult sigStr) := by
  intro fuel
  induction fuel with
  | zero => intro k elapsed; rfl
  | succ n ih =>
    intro k elapsed
    simp only [pollLoop]
    split
    · have hk := h k
      rcases hc : check k with _ | v
      · rw [hc] at hk; simp [inconclusiveCheck] at hk
      · rcases v with e | o
        · exact ih (k + 1) (elapsed + poll_interval)
        · rcases o with _ | r
          · exact ih (k + 1) (elapsed + poll_interval)
          · rw [hc] at hk
            simp only [inconclusiveCheck, Bool.not_eq_true', decide_eq_false_iff_not] at hk
            push_neg at hk
            obtain ⟨h1, h2, h3⟩ := hk
            dsimp only
            rw [if_neg (by simp [h1, h2]), if_neg h3]
            exact ih (k + 1) (elapsed + poll_interval)
    · rfl

/-- Positional specification of the batch loop: the output list has one entry
per input signature, in order, equal to the monitored result or to the
synthetic failure according to the per-signature outcome. -/
lemma batch_aux_spec (from_str : String → Except String Signature)
    (envs : Nat → Nat → Solana) (cfg : TransactionMonitorConfig) :
    ∀ (signatures : List String) (i0 : Nat) (results : List TransactionMonitorResult),
      monitor_transactions_batch_aux from_str envs cfg i0 signatures = .value results →
      results.length = signatures.length ∧
      ∀ i, i < signatures.length →
        (∀ r, monitor_transaction_status from_str (signatures.getD i "") (envs (i0 + i))
            (some cfg) = .value (.ok r) →
            results.getD i (timeoutResult "") = r) ∧
        (∀ e, monitor_transaction_status from_str (signatures.getD i "") (envs (i0 + i))
            (some cfg) = .value (.error e) →
            results.getD i (timeoutResult "") =
              syntheticFailed (signatures.getD i "") e) := by
  intro signatures
  induction signatures with
  | nil =>
    intro i0 results h
    simp only [monitor_transactions_batch_aux] at h
    cases h
    exact ⟨rfl, fun i hi => absurd hi (Nat.not_lt_zero i)⟩
  | cons s rest ih =>
    intro i0 results h
    simp only [monitor_transactions_batch_aux] at h
    rcases hm : monitor_transaction_status from_str s (envs i0) (some cfg) with _ | v
    · rw [hm] at h; cases h
    · rcases v with e | r
      · rw [hm] at h
        rcases hrec : monitor_transactions_batch_aux from_str envs cfg (i0 + 1) rest
          with _ | rs
        · rw [hrec] at h; cases h
        · rw [hrec] at h
          cases h
          obtain ⟨hlen, hpos⟩ := ih (i0 + 1) rs hrec
          refine ⟨by simpa using hlen, fun i hi => ?_⟩
          cases i with
          | zero =>
            refine ⟨fun r' hr' => ?_, fun e' he' => ?_⟩
            · rw [show (s :: rest).getD 0 "" = s from rfl] at hr'
              rw [show i0 + 0 = i0 from rfl] at hr'
              rw [hm] at hr'; cases hr'
            · rw [show (s :: rest).getD 0 "" = s from rfl] at he'
              rw [show i0 + 0 = i0 from rfl] at he'
              rw [hm] at he'
              simp only [PanicOr.value.injEq, Except.error.injEq] at he'
              subst he'
              rfl
          | succ j =>
            have hj : j < rest.length := by simpa using hi
            have hshift : i0 + (j + 1) = (i0 + 1) + j := by omega
            have hout := hpos j hj
            refine ⟨fun r' hr' => ?_, fun e' he' => ?_⟩
            · rw [show (s :: rest).getD (j + 1) "" = rest.getD j "" from rfl, hshift] at hr'
              exact hout.1 r' hr'
            · rw [show (s :: rest).getD (j + 1) "" = rest.getD j "" from rfl, hshift] at he'
              exact hout.2 e' he'
      · rw [hm] at h
        rcases hrec : monitor_transactions_batch_aux from_str envs cfg (i0 + 1) rest
          with _ | rs
        · rw [hrec] at h; cases h
        · rw [hrec] at h
          cases h
          obtain ⟨hlen, hpos⟩ := ih (i0 + 1) rs hrec
          refine ⟨by simpa using hlen, fun i hi => ?_⟩
          cases i with
          | zero =>
            refine ⟨fun r' hr' => ?_, fun e' he' => ?_⟩
            · rw [show (s :: rest).getD 0 "" = s from rfl] at hr'
              rw [show i0 + 0 = i0 from rfl] at hr'
              rw [hm] at hr'
              simp only [PanicOr.value.injEq, Except.ok.injEq] at hr'
              subst hr'
              rfl
            · rw [show (s :: rest).getD 0 "" = s from rfl] at he'
              rw [show i0 + 0 = i0 from rfl] at he'
              rw [hm] at he'; cases he'
          | succ j =>
            have hj : j < rest.length := by simpa using hi
            have hshift : i0 + (j + 1) = (i0 + 1) + j := by omega
            have hout := hpos j hj
            refine ⟨fun r' hr' => ?_, fun e' he' => ?_⟩
            · rw [show (s :: rest).getD (j + 1) "" = rest.getD j "" from rfl, hshift] at hr'
              exact hout.1 r' hr'
            · rw [show (s :: rest).getD (j + 1) "" = rest.getD j "" from rfl, hshift] at he'
              exact hout.2 e' he'

/-- Attempt counting, result provenance and earlier-failure structure of the
retry loop, proved by induction on the remaining retry budget. -/
lemma execute_with_retry_aux_spec {T : Type} (op : Nat → Except JupiterError T)
    (config : RetryConfig) :
    ∀ (remaining attempt : Nat) (sleeps : List ℚ),
      attempt + 1 ≤ (execute_with_retry_aux op config attempt remaining sleeps).attempts ∧
      (execute_with_retry_aux op config attempt remaining sleeps).attempts ≤
        attempt + remaining + 1 ∧
      (∀ r, (execute_with_retry_aux op config attempt remaining sleeps).result = .ok r →
        op ((execute_with_retry_aux op config attempt remaining sleeps).attempts - 1) = .ok r) ∧
      (∀ e, (execute_with_retry_aux op config attempt remaining sleeps).result = .error e →
        op ((execute_with_retry_aux op config attempt remaining sleeps).attempts - 1) =
          .error e) ∧
      (∀ j, attempt ≤ j →
        j + 1 < (execute_with_retry_aux op config attempt remaining sleeps).attempts →
        ∃ e, op j = .error e ∧ e.is_retriable = true) := by
  intro remaining
  induction remaining with
  | zero =>
    intro attempt sleeps
    rcases hop : op attempt with e | r
    · have hstep : execute_with_retry_aux op config attempt 0 sleeps =
          ⟨.error e, attempt + 1, sleeps⟩ := by
        simp [execute_with_retry_aux, hop]
      rw [hstep]
      refine ⟨le_rfl, le_rfl, ?_, ?_, ?_⟩
      · intro r hr
        exact absurd ((rfl : (⟨.error e, attempt + 1, sleeps⟩ : RetryTrace T).result =
          .error e).symm.trans hr) (by intro hc; cases hc)
      · intro e' he'
        have he2 : (Except.error e : Except JupiterError T) = .error e' := he'
        cases he2
        show op (attempt + 1 - 1) = Except.error e
        simpa using hop
      · intro j hj hj2
        have hj3 : j + 1 < attempt + 1 := hj2
        omega
    · have hstep : execute_with_retry_aux op config attempt 0 sleeps =
          ⟨.ok r, attempt + 1, sleeps⟩ := by
        simp [execute_with_retry_aux, hop]
      rw [hstep]
      refine ⟨le_rfl, le_rfl, ?_, ?_, ?_⟩
      · intro r' hr'
        have hr2 : (Except.ok r : Except JupiterError T) = .ok r' := hr'
        cases hr2
        show op (attempt + 1 - 1) = Except.ok r
        simpa using hop
      · intro e' he'
        exact absurd ((rfl : (⟨.ok r, attempt + 1, sleeps⟩ : RetryTrace T).result =
          .ok r).symm.trans he') (by intro hc; cases hc)
      · intro j hj hj2
        have hj3 : j + 1 < attempt + 1 := hj2
        omega
  | succ n ih =>
    intro attempt sleeps
    rcases hop : op attempt with e | r
    · by_cases hret : e.is_retriable
      · have hstep : execute_with_retry_aux op config attempt (n + 1) sleeps =
            execute_with_retry_aux op config (attempt + 1) n
              (sleeps ++ [cal_delay attempt config]) := by
          simp [execute_with_retry_aux, hop, hret]
        rw [hstep]
        obtain ⟨i1, i2, i3, i4, i5⟩ := ih (attempt + 1) (sleeps ++ [cal_delay attempt config])
        refine ⟨by omega, by omega, i3, i4, ?_⟩
        intro j hj hj2
        rcases Nat.eq_or_lt_of_le hj with heq | hlt
        · exact ⟨e, heq ▸ hop, hret⟩
        · exact i5 j hlt hj2
      · have hret' : e.is_retriable = false := by
          simpa using hret
        have hstep : execute_with_retry_aux op config attempt (n + 1) sleeps =
            ⟨.error e, attempt + 1, sleeps⟩ := by
          simp [execute_with_retry_aux, hop, hret']
        rw [hstep]
        refine ⟨le_rfl, by show attempt + 1 ≤ attempt + (n + 1) + 1; omega, ?_, ?_, ?_⟩
        · intro r hr
          exact absurd ((rfl : (⟨.error e, attempt + 1, sleeps⟩ : RetryTrace T).result =
            .error e).symm.trans hr) (by intro hc; cases hc)
        · intro e' he'
          have he2 : (Except.error e : Except JupiterError T) = .error e' := he'
          cases he2
          show op (attempt + 1 - 1) = Except.error e
          simpa using hop
        · intro j hj hj2
          have hj3 : j + 1 < attempt + 1 := hj2
          omega
    · have hstep : execute_with_retry_aux op config attempt (n + 1) sleeps =
          ⟨.ok r, attempt + 1, sleeps⟩ := by
        simp [execute_with_retry_aux, hop]
      rw [hstep]
      refine ⟨le_rfl, by show attempt + 1 ≤ attempt + (n + 1) + 1; omega, ?_, ?_, ?_⟩
      · intro r' hr'
        have hr2 : (Except.ok r : Except JupiterError T) = .ok r' := hr'
        cases hr2
        show op (attempt + 1 - 1) = Except.ok r
        simpa using hop
      · intro e' he'
        exact absurd ((rfl : (⟨.ok r, attempt + 1, sleeps⟩ : RetryTrace T).result =
          .ok r).symm.trans he') (by intro hc; cases hc)
      · intro j hj hj2
        have hj3 : j + 1 < attempt + 1 := hj2
        omega

/-- C1: in every poll iteration in which the status probe returns a record for
the signature and a monitor result is produced, that result's status follows
the precedence: err present means Failed; else an absent confirmation count
means Finalized; else a confirmation count at least confirmations_required
means Confirmed; otherwise Pending. -/
theorem confirmation_policy_precedence
    (sig : Signature) (solana : Solana) (config : TransactionMonitorConfig)
    (client : RpcClient) (statuses : List (Option SigStatus)) (status : SigStatus)
    (res : TransactionMonitorResult)
    (hc : solana.client = some client)
    (hs : client.get_signature_statuses = .ok statuses)
    (hr : (statuses.get? 0).bind id = some status)
    (hres : check_transaction_status sig solana config = .value (.ok (some res))) :
    res.status =
      (if status.err.isSome then TransactionStatus.Failed
       else if status.confirmations.isNone then TransactionStatus.Finalized
       else if (status.confirmations.map
           (fun c => decide (config.confirmations_required ≤ c))).getD false then
         TransactionStatus.Confirmed
       else TransactionStatus.Pending) := by
  rw [check_record_present_eq sig solana config client statuses status hc hs hr] at hres
  rcases hlog : get_transaction_logs sig solana with e | logsOpt
  · rw [hlog] at hres; cases hres
  · rcases logsOpt with _ | logs
    · rw [hlog] at hres; cases hres
    · rw [hlog] at hres
      rcases hbt : (if 0 < status.slot then
                 match client.get_block_time status.slot with
                 | .error e =>
                   Except.error (JupiterError.Error ("get block time error:" ++ e))
                 | .ok t => Except.ok t
               else Except.ok 0) with e | bt
      · rw [hbt] at hres; cases hres
      · rw [hbt] at hres
        simp only [PanicOr.value.injEq, Except.ok.injEq, Option.some.injEq] at hres
        subst hres
        rfl

/-- C1 witness: a concrete healthy record (no error, three confirmations,
one required) yields a result whose status matches the precedence, namely
Confirmed. -/
theorem confirmation_policy_precedence_witness :
    solanaRec.client = some clientRec ∧
    clientRec.get_signature_statuses = .ok [some statusRec] ∧
    (([some statusRec] : List (Option SigStatus)).get? 0).bind id = some statusRec ∧
    check_transaction_status ⟨"sigW"⟩ solanaRec cfgW = .value (.ok (some
      { signature := "sigW", status := TransactionStatus.Confirmed, slot := 5,
        block_time := some 42, confirmations := some 3, logs := ["log1"], error := none })) ∧
    ({ signature := "sigW", status := TransactionStatus.Confirmed, slot := 5,
       block_time := some 42, confirmations := some 3, logs := ["log1"],
       error := none } : TransactionMonitorResult).status =
      (if statusRec.err.isSome then TransactionStatus.Failed
       else if statusRec.confirmations.isNone then TransactionStatus.Finalized
       else if (statusRec.confirmations.map
           (fun c => decide (cfgW.confirmations_required ≤ c))).getD false then
         TransactionStatus.Confirmed
       else TransactionStatus.Pending) :=
  ⟨rfl, rfl, rfl, by decide,
    confirmation_policy_precedence ⟨"sigW"⟩ solanaRec cfgW clientRec [some statusRec]
      statusRec _ rfl rfl rfl (by decide)⟩

/-- C2: the retry executor performs at most max_retries + 1 attempts; a
returned success is the outcome of the last attempt made, every attempt before
the last one was a retriable failure, a non-retriable failure on the first
attempt yields exactly one attempt with no sleep, and a returned failure is
the failure of the last attempt made (the most recent one). -/
theorem retry_executor_contract {T : Type} (op : Nat → Except JupiterError T)
    (config : RetryConfig) :
    (execute_with_retry op config).attempts ≤ config.max_retries + 1 ∧
    (∀ r, (execute_with_retry op config).result = .ok r →
      op ((execute_with_retry op config).attempts - 1) = .ok r) ∧
    (∀ j, j + 1 < (execute_with_retry op config).attempts →
      ∃ e, op j = .error e ∧ e.is_retriable = true) ∧
    (∀ e, op 0 = .error e → e.is_retriable = false →
      execute_with_retry op config = ⟨.error e, 1, []⟩) ∧
    (∀ e, (execute_with_retry op config).result = .error e →
      op ((execute_with_retry op config).attempts - 1) = .error e) := by
  obtain ⟨h1, h2, h3, h4, h5⟩ :=
    execute_with_retry_aux_spec op config config.max_retries 0 []
  refine ⟨by simpa using h2, h3, fun j hj => h5 j (Nat.zero_le j) hj, ?_, h4⟩
  intro e hop hret
  unfold execute_with_retry
  cases hmr : config.max_retries with
  | zero => simp [execute_with_retry_aux, hop]
  | succ n => simp [execute_with_retry_aux, hop, hret]

/-- C2 witness: an operation failing with the fatal InvalidInput error is
invoked exactly once under the default retry configuration, with no sleeps,
and that error is surfaced. -/
theorem retry_executor_contract_witness :
    opFatal 0 = .error (JupiterError.InvalidInput "x") ∧
    (JupiterError.InvalidInput "x").is_retriable = false ∧
    execute_with_retry opFatal cfgR =
      ⟨.error (JupiterError.InvalidInput "x"), 1, []⟩ :=
  ⟨rfl, rfl, (retry_executor_contract opFatal cfgR).2.2.2.1
    (JupiterError.InvalidInput "x") rfl rfl⟩

/-- C3 counterexample: with a probe record that is terminal (err present,
slot 5) and a failing log fetch, the iteration returns an error instead of
the already-determined terminal Failed result. -/
theorem log_fetch_failure_counterexample :
    check_transaction_status ⟨"sigW"⟩ solanaLogsFail cfgW =
      .value (.error (JupiterError.Error
        "get transcation logs error:Error(\"transaction does not exist\")")) ∧
    isOkSome (check_transaction_status ⟨"sigW"⟩ solanaLogsFail cfgW) = false := by
  exact ⟨by decide, by decide⟩

/-- C3 amended: whenever the status probe returns a record (terminal or not,
any slot), the log fetch is performed before the status is determined; a fetch
failure aborts the iteration with an error, discarding the terminal
determination (the loop then logs the error and keeps polling); a fetch that
succeeds without log messages panics; and when a result is produced its logs
are exactly the fetched ones. -/
theorem log_enrichment_behavior
    (sig : Signature) (solana : Solana) (config : TransactionMonitorConfig)
    (client : RpcClient) (statuses : List (Option SigStatus)) (status : SigStatus)
    (hc : solana.client = some client)
    (hs : client.get_signature_statuses = .ok statuses)
    (hr : (statuses.get? 0).bind id = some status) :
    (∀ e, get_transaction_logs sig solana = .error e →
        check_transaction_status sig solana config =
          .value (.error (JupiterError.Error
            ("get transcation logs error:" ++ JupiterError.debugStr e)))) ∧
    (get_transaction_logs sig solana = .ok none →
        check_transaction_status sig solana config = .panic) ∧
    (∀ logs res, get_transaction_logs sig solana = .ok (some logs) →
        check_transaction_status sig solana config = .value (.ok (some res)) →
        res.logs = logs) := by
  rw [check_record_present_eq sig solana config client statuses status hc hs hr]
  refine ⟨fun e he => by rw [he], fun he => by rw [he], fun logs res hlog hres => ?_⟩
  rw [hlog] at hres
  rcases hbt : (if 0 < status.slot then
           match client.get_block_time status.slot with
           | .error e =>
             Except.error (JupiterError.Error ("get block time error:" ++ e))
           | .ok t => Except.ok t
         else Except.ok 0) with e | bt
  · rw [hbt] at hres; cases hres
  · rw [hbt] at hres
    simp only [PanicOr.value.injEq, Except.ok.injEq, Option.some.injEq] at hres
    subst hres
    rfl

/-- C3 witness: on the concrete failing-fetch node the first branch of the
amended statement applies, giving the error outcome. -/
theorem log_enrichment_behavior_witness :
    get_transaction_logs ⟨"sigW"⟩ solanaLogsFail =
      .error (JupiterError.Error "transaction does not exist") ∧
    check_transaction_status ⟨"sigW"⟩ solanaLogsFail cfgW =
      .value (.error (JupiterError.Error
        ("get transcation logs error:" ++
          JupiterError.debugStr (JupiterError.Error "transaction does not exist")))) :=
  ⟨rfl, (log_enrichment_behavior ⟨"sigW"⟩ solanaLogsFail cfgW clientLogsFail
    [some { slot := 5, confirmations := some 3, err := some "InstructionError" }]
    { slot := 5, confirmations := some 3, err := some "InstructionError" }
    rfl rfl rfl).1 (JupiterError.Error "transaction does not exist") rfl⟩

/-- C4: when the batch monitor returns, its output has exactly one entry per
input signature, in input order: position i holds the monitored result of
signature i, or, when monitoring signature i returned an error, the synthetic
Failed result carrying that error's display message. -/
theorem batch_length_order_isolation
    (from_str : String → Except String Signature) (signatures : List String)
    (envs : Nat → Nat → Solana) (config : Option TransactionMonitorConfig)
    (results : List TransactionMonitorResult)
    (h : monitor_transactions_batch from_str signatures envs config =
      .value (.ok results)) :
    results.length = signatures.length ∧
    ∀ i, i < signatures.length →
      (∀ r, monitor_transaction_status from_str (signatures.getD i "") (envs i)
          (some (config.getD TransactionMonitorConfig.default)) = .value (.ok r) →
          results.getD i (timeoutResult "") = r) ∧
      (∀ e, monitor_transaction_status from_str (signatures.getD i "") (envs i)
          (some (config.getD TransactionMonitorConfig.default)) = .value (.error e) →
          results.getD i (timeoutResult "") =
            syntheticFailed (signatures.getD i "") e) := by
  simp only [monitor_transactions_batch] at h
  rcases haux : monitor_transactions_batch_aux from_str envs
      (config.getD TransactionMonitorConfig.default) 0 signatures with _ | rs
  · rw [haux] at h; cases h
  · rw [haux] at h
    simp only [PanicOr.value.injEq, Except.ok.injEq] at h
    subst h
    obtain ⟨hlen, hpos⟩ := batch_aux_spec from_str envs
      (config.getD TransactionMonitorConfig.default) signatures 0 rs haux
    refine ⟨hlen, fun i hi => ?_⟩
    have := hpos i hi
    rwa [Nat.zero_add] at this

/-- C4 witness: a one-element batch whose signature fails to parse yields a
one-element output holding the synthetic Failed result at position 0. -/
theorem batch_length_order_isolation_witness :
    monitor_transactions_batch fsBad ["x"] (fun _ _ => solanaNoRecord) none =
      .value (.ok [syntheticFailed "x" (JupiterError.InvalidInput "bad")]) ∧
    ([syntheticFailed "x" (JupiterError.InvalidInput "bad")]).length =
      (["x"] : List String).length ∧
    ([syntheticFailed "x" (JupiterError.InvalidInput "bad")]).getD 0 (timeoutResult "") =
      syntheticFailed ((["x"] : List String).getD 0 "") (JupiterError.InvalidInput "bad") := by
  have happ := batch_length_order_isolation fsBad ["x"] (fun _ _ => solanaNoRecord) none
    [syntheticFailed "x" (JupiterError.InvalidInput "bad")] rfl
  exact ⟨rfl, happ.1, (happ.2 0 (by decide)).2 (JupiterError.InvalidInput "bad") rfl⟩

/-- C5 counterexample: a RequestFailed error carrying the 5xx-class HTTP
status 504 is classified not retriable, refuting the claim that every
5xx-class RequestFailed is retriable. -/
theorem http_504_not_retriable_counterexample :
    (JupiterError.RequestFailed "HTTP status 504").is_retriable = false := by
  decide

/-- C5 amended: network and rate-limit errors are retriable; a RequestFailed
error is retriable exactly when its message contains the substring "500",
"502" or "503" (so other 5xx statuses such as 504 are not retried);
InvalidInput, ParseError, ValidationError and TransactionFailed are never
retriable. -/
theorem error_classification_amended (msg : String) :
    (JupiterError.NetworkError msg).is_retriable = true ∧
    (JupiterError.RateLimitExceeded msg).is_retriable = true ∧
    (JupiterError.RequestFailed msg).is_retriable =
      (containsSub msg "500" || containsSub msg "502" || containsSub msg "503") ∧
    (JupiterError.InvalidInput msg).is_retriable = false ∧
    (JupiterError.ParseError msg).is_retriable = false ∧
    (JupiterError.ValidationError msg).is_retriable = false ∧
    (JupiterError.TransactionFailed msg).is_retriable = false :=
  ⟨rfl, rfl, rfl, rfl, rfl, rfl, rfl⟩

/-- C6: when the status probe has no record at all, the monitor falls back to
the transaction fetch: a found transaction yields a Confirmed result with the
fetched logs and confirmations equal to exactly confirmations_required, while
a failed fetch leaves the iteration inconclusive (no result, polling
continues). -/
theorem status_probe_fallback
    (sig : Signature) (solana : Solana) (config : TransactionMonitorConfig)
    (client : RpcClient) (statuses : List (Option SigStatus))
    (hc : solana.client = some client)
    (hs : client.get_signature_statuses = .ok statuses)
    (hr : (statuses.get? 0).bind id = none) :
    (∀ tx, client.get_transaction_with_config
        { encoding := none, commitment := some config.commitment,
          max_supported_transaction_version := some 0 } = .ok tx →
      check_transaction_status sig solana config = .value (.ok (some
        { signature := sig.str
          status := TransactionStatus.Confirmed
          slot := tx.slot
          block_time := tx.block_time
          confirmations := some config.confirmations_required
          logs := (tx.meta.bind (fun m => m.log_messages)).getD []
          error := none }))) ∧
    (∀ u, client.get_transaction_with_config
        { encoding := none, commitment := some config.commitment,
          max_supported_transaction_version := some 0 } = .error u →
      check_transaction_status sig solana config = .value (.ok none)) := by
  have key : check_transaction_status sig solana config =
      match check_via_transaction sig solana config with
      | .ok (some result) => .value (.ok (some result))
      | _ => .value (.ok none) := by
    simp only [check_transaction_status, hc, hs, hr]
  constructor
  · intro tx htx
    rw [key]
    simp only [check_via_transaction, hc, htx]
  · intro u hu
    rw [key]
    simp only [check_via_transaction, hc, hu]

/-- C6 witness: on a node with no probe record whose fallback fetch finds a
transaction at slot 9 with one log line, the iteration yields Confirmed with
the fetched logs and confirmations equal to the configured requirement 1. -/
theorem status_probe_fallback_witness :
    clientFallbackOk.get_transaction_with_config
      { encoding := none, commitment := some cfgW.commitment,
        max_supported_transaction_version := some 0 } = .ok txW ∧
    check_transaction_status ⟨"sigW"⟩ solanaFallbackOk cfgW = .value (.ok (some
      { signature := "sigW", status := TransactionStatus.Confirmed, slot := 9,
        block_time := some 77, confirmations := some 1, logs := ["fb"],
        error := none })) :=
  ⟨rfl, (status_probe_fallback ⟨"sigW"⟩ solanaFallbackOk cfgW clientFallbackOk []
    rfl rfl rfl).1 txW rfl⟩

/-- C7: for every configuration with backoff multiplier above one, the retry
delay equals min(initial_delay * multiplier^attempt, max_delay), the delay
sequence is non-decreasing in the attempt number, and every delay is at most
max_delay. -/
theorem cal_delay_monotone_bounded (config : RetryConfig) (attempt : Nat)
    (h : 1 < config.backoff_multiplier) :
    cal_delay attempt config =
      min ((config.initial_delay : ℚ) * config.backoff_multiplier ^ attempt)
        (config.max_delay : ℚ) ∧
    cal_delay attempt config ≤ cal_delay (attempt + 1) config ∧
    cal_delay attempt config ≤ (config.max_delay : ℚ) := by
  refine ⟨rfl, ?_, min_le_right _ _⟩
  unfold cal_delay
  refine min_le_min ?_ le_rfl
  refine mul_le_mul_of_nonneg_left ?_ (by positivity)
  exact pow_le_pow_right₀ (le_of_lt h) (Nat.le_succ attempt)

/-- C7 witness: the source's default retry configuration (500 ms initial,
5000 ms cap, multiplier 2) satisfies the formula, monotonicity and bound at
attempt 0. -/
theorem cal_delay_monotone_bounded_witness :
    (1 : ℚ) < cfgR.backoff_multiplier ∧
    (cal_delay 0 cfgR =
      min ((cfgR.initial_delay : ℚ) * cfgR.backoff_multiplier ^ 0) (cfgR.max_delay : ℚ) ∧
     cal_delay 0 cfgR ≤ cal_delay 1 cfgR ∧
     cal_delay 0 cfgR ≤ (cfgR.max_delay : ℚ)) :=
  ⟨by decide, cal_delay_monotone_bounded cfgR 0 (by decide)⟩

/-- C8: a signature string that fails to parse makes the direct monitor call
return the InvalidInput error, while the same string inside a batch never
surfaces an error: its position in the batch output holds the synthetic
Failed result carrying that InvalidInput message. -/
theorem malformed_signature_modes
    (from_str : String → Except String Signature) (s : String) (m : String)
    (envs : Nat → Solana) (config : Option TransactionMonitorConfig)
    (hp : from_str s = .error m) :
    monitor_transaction_status from_str s envs config =
      .value (.error (JupiterError.InvalidInput m)) ∧
    (∀ (signatures : List String) (benvs : Nat → Nat → Solana)
        (results : List TransactionMonitorResult) (i : Nat),
      monitor_transactions_batch from_str signatures benvs config = .value (.ok results) →
      i < signatures.length → signatures.getD i "" = s →
      results.getD i (timeoutResult "") =
        syntheticFailed s (JupiterError.InvalidInput m)) := by
  have hone : ∀ benvs' : Nat → Solana,
      monitor_transaction_status from_str s benvs' config =
        .value (.error (JupiterError.InvalidInput m)) := by
    intro benvs'
    simp only [monitor_transaction_status, hp]
  refine ⟨hone envs, fun signatures benvs results i hb hi hsig => ?_⟩
  simp only [monitor_transactions_batch] at hb
  rcases haux : monitor_transactions_batch_aux from_str benvs
      (config.getD TransactionMonitorConfig.default) 0 signatures with _ | rs
  · rw [haux] at hb; cases hb
  · rw [haux] at hb
    simp only [PanicOr.value.injEq, Except.ok.injEq] at hb
    subst hb
    obtain ⟨hlen, hpos⟩ := batch_aux_spec from_str benvs
      (config.getD TransactionMonitorConfig.default) signatures 0 rs haux
    have hout := (hpos i hi).2 (JupiterError.InvalidInput m)
    rw [Nat.zero_add, hsig] at hout
    have hmon : monitor_transaction_status from_str s (benvs i)
        (some (config.getD TransactionMonitorConfig.default)) =
          .value (.error (JupiterError.InvalidInput m)) := by
      simp only [monitor_transaction_status, hp]
    exact hout hmon

/-- C8 witness: the always-failing parser makes the direct monitor call on
"x" return InvalidInput "bad". -/
theorem malformed_signature_modes_witness :
    fsBad "x" = .error "bad" ∧
    monitor_transaction_status fsBad "x" (fun _ => solanaNoRecord) none =
      .value (.error (JupiterError.InvalidInput "bad")) :=
  ⟨rfl, (malformed_signature_modes fsBad "x" "bad" (fun _ => solanaNoRecord) none rfl).1⟩

/-- C9 counterexample: a run that reaches the deadline returns the timeout
result whose error message is "Transaction monitoring timeout", not the
"monitoring timeout" stated by the claim. -/
theorem timeout_message_counterexample :
    monitor_transaction_status fsOk "sigW" (fun _ => solanaNoRecord) (some cfgW) =
      .value (.ok (timeoutResult "sigW")) ∧
    (timeoutResult "sigW").error = some "Transaction monitoring timeout" ∧
    ¬ (timeoutResult "sigW").error = some "monitoring timeout" :=
  ⟨by decide, by decide, by decide⟩

/-- C9 amended: a monitoring run whose every iteration is inconclusive exits
once elapsed time reaches the timeout and returns (never raises) the
well-formed result with status Timeout, slot 0, no block time, no
confirmations, empty logs, and error message "Transaction monitoring
timeout". -/
theorem poll_timeout_contract
    (from_str : String → Except String Signature) (sigStr : String)
    (envs : Nat → Solana) (config : Option TransactionMonitorConfig) (sig : Signature)
    (hp : from_str sigStr = .ok sig)
    (hpos : 0 < (config.getD TransactionMonitorConfig.default).poll_interval)
    (hnc : ∀ k, inconclusiveCheck (check_transaction_status sig (envs k)
        (config.getD TransactionMonitorConfig.default)) = true) :
    monitor_transaction_status from_str sigStr envs config =
      .value (.ok
        { signature := sig.str, status := TransactionStatus.Timeout, slot := 0,
          block_time := none, confirmations := none, logs := [],
          error := some "Transaction monitoring timeout" }) := by
  simp only [monitor_transaction_status, hp]
  rw [pollLoop_all_inconclusive _ _ _ _ hnc]
  rfl

/-- C9 witness: with a node that never has a record and a failing fallback
fetch, a 2 ms deadline with 1 ms polling returns the timeout result. -/
theorem poll_timeout_contract_witness :
    fsOk "sigW" = .ok ⟨"sigW"⟩ ∧
    0 < ((some cfgW).getD TransactionMonitorConfig.default).poll_interval ∧
    inconclusiveCheck (check_transaction_status ⟨"sigW"⟩ solanaNoRecord cfgW) = true ∧
    monitor_transaction_status fsOk "sigW" (fun _ => solanaNoRecord) (some cfgW) =
      .value (.ok
        { signature := "sigW", status := TransactionStatus.Timeout, slot := 0,
          block_time := none, confirmations := none, logs := [],
          error := some "Transaction monitoring timeout" }) := by
  have hone : inconclusiveCheck (check_transaction_status ⟨"sigW"⟩ solanaNoRecord cfgW) = true := by
    decide
  exact ⟨rfl, by decide, hone,
    poll_timeout_contract fsOk "sigW" (fun _ => solanaNoRecord) (some cfgW) ⟨"sigW"⟩
      rfl (by decide) (fun _ => hone)⟩

/-- C10: when the status probe has a record for the signature, the status
check panics exactly when the log-retrieval fetch succeeds but carries no log
messages (the source unwraps the resulting Ok(None)); it completes without
panic precisely when that fetch returns log messages or fails outright. -/
theorem logs_unwrap_panic_iff
    (sig : Signature) (solana : Solana) (config : TransactionMonitorConfig)
    (client : RpcClient) (statuses : List (Option SigStatus)) (status : SigStatus)
    (hc : solana.client = some client)
    (hs : client.get_signature_statuses = .ok statuses)
    (hr : (statuses.get? 0).bind id = some status) :
    check_transaction_status sig solana config = .panic ↔
      get_transaction_logs sig solana = .ok none := by
  rw [check_record_present_eq sig solana config client statuses status hc hs hr]
  constructor
  · intro h
    rcases hlog : get_transaction_logs sig solana with e | logsOpt
    · rw [hlog] at h; cases h
    · rcases logsOpt with _ | logs
      · rfl
      · rw [hlog] at h
        rcases hbt : (if 0 < status.slot then
                 match client.get_block_time status.slot with
                 | .error e =>
                   Except.error (JupiterError.Error ("get block time error:" ++ e))
                 | .ok t => Except.ok t
               else Except.ok 0) with e | bt
        · rw [hbt] at h; cases h
        · rw [hbt] at h; cases h
  · intro h; rw [h]

/-- C10 witness: a node whose probe has a record and whose transaction fetch
succeeds with no metadata makes the status check panic. -/
theorem logs_unwrap_panic_iff_witness :
    get_transaction_logs ⟨"sigW"⟩ solanaNoLogs = .ok none ∧
    check_transaction_status ⟨"sigW"⟩ solanaNoLogs cfgW = .panic :=
  ⟨rfl, (logs_unwrap_panic_iff ⟨"sigW"⟩ solanaNoLogs cfgW clientNoLogs
    [some statusRec] statusRec rfl rfl rfl).mpr rfl⟩
